import Mathlib

/-!
Shallow embedding of `web/templates.go` from AdamMagaluk/goutils.

The template engine (`html/template`), the filesystem and the HTTP transport
are external collaborators; they are modelled as explicit parameters
(lookup/exec oracles, directory listings).  Everything written to the
`http.ResponseWriter` is modelled as an event trace: `WriteHeader` calls and
body writes, plus bookkeeping events for template lookups and executions so
that ordering claims can be stated.  A Go `panic` (nil-interface method call,
nil-pointer dereference) is modelled as an explicit outcome constructor.
-/

namespace Web

/-- Modelled from the spec: the `ErrorResponse` capability is declared outside
`web/templates.go` (elsewhere in the repository).  Per the spec it is an error
exposing `Status() -> HTTP status code` and a human-readable message. -/
structure ErrorResponse where
  status : Int
  msg : String
deriving DecidableEq, Repr

/-- A Go `error` value: its `Error()` message plus, when `errors.As(err, &er)`
succeeds for the `ErrorResponse` capability, the extracted capability value. -/
structure GoError where
  msg : String
  asResponse : Option ErrorResponse
deriving DecidableEq, Repr

/-- A parsed template set (`html/template`, external): the set of template
names it defines.  A handle to a template is identified by its name. -/
structure TemplateSet where
  names : List String
deriving DecidableEq, Repr

/-- Go `(*template.Template).Lookup`: the associated template, or nil. -/
def TemplateSet.lookup (ts : TemplateSet) (name : String) : Option String :=
  if name ∈ ts.names then some name else none

/-- The error returned by `lookupTemplate` for an absent name
(`fmt.Errorf("cannot find template %s", name)`, a plain error that does not
expose the `ErrorResponse` capability). -/
def templateNotFoundErr (name : String) : GoError :=
  ⟨"cannot find template " ++ name, none⟩

/-- `lookupTemplate` (templates.go lines 26-32): nil result from `Lookup`
becomes a `TemplateNotFound` error; otherwise the handle is returned. -/
def lookupTemplate (main : TemplateSet) (name : String) : Except GoError String :=
  match main.lookup name with
  | none => .error (templateNotFoundErr name)
  | some t => .ok t

/-- The result of `filepath.Join(root, name)` for a directory entry `name`
(entry names contain no separator, so the pair is kept structurally). -/
structure TplPath where
  dir : String
  base : String
deriving DecidableEq, Repr

/-- `strings.ContainsAny(x, "#~")`: some character of `x` is `#` or `~`. -/
def hasBadChar (x : String) : Bool :=
  x.data.any (fun c => c == '#' || c == '~')

/-- `fixFiles` (templates.go lines 210-221): skip every entry whose name
contains `#` or `~`, join the rest onto the root. -/
def fixFiles (files : List String) (root : String) : List TplPath :=
  files.filterMap (fun x => if hasBadChar x then none else some ⟨root, x⟩)

/-- The cached template set of the embedded manager (`embedTM`). -/
structure embedTM where
  cachedTemplates : TemplateSet
deriving DecidableEq, Repr

/-- `embedTM.LookupTemplate` (lines 38-40): look up in the cached set. -/
def embedTM.LookupTemplate (tm : embedTM) (name : String) : Except GoError String :=
  lookupTemplate tm.cachedTemplates name

/-- `NewTemplateManagerEmbed` (lines 43-56).  The embedded filesystem read is
the `readDirResult` argument; parsing (`ParseFS`, external) is the `parse`
argument.  A parse failure is wrapped with `%w`, keeping the error chain. -/
def NewTemplateManagerEmbed (readDirResult : Except GoError (List String))
    (parse : List TplPath → Except GoError TemplateSet) (srcDir : String) :
    Except GoError embedTM :=
  match readDirResult with
  | .error err => .error err
  | .ok files =>
    match parse (fixFiles files srcDir) with
    | .error err =>
      .error ⟨"error initializing templates from embedded filesystem: " ++ err.msg,
              err.asResponse⟩
    | .ok ts => .ok ⟨ts⟩

/-- The filesystem-backed manager (`fsTM`): it stores only the directory. -/
structure fsTM where
  srcDir : String
deriving DecidableEq, Repr

/-- The live filesystem, external: `os.ReadDir` on a directory yields the
entry names or an error. -/
structure DirFS where
  readDir : String → Except GoError (List String)

/-- `fsTM.LookupTemplate` (lines 62-75): re-read the directory, re-filter,
re-parse (`ParseFiles`, external, the `parse` argument), then look up. -/
def fsTM.LookupTemplate (tm : fsTM) (fsys : DirFS)
    (parse : List TplPath → Except GoError TemplateSet) (name : String) :
    Except GoError String :=
  match fsys.readDir tm.srcDir with
  | .error err => .error err
  | .ok files =>
    match parse (fixFiles files tm.srcDir) with
    | .error err => .error err
    | .ok main => lookupTemplate main name

/-- `NewTemplateManagerFS` (lines 78-80): records the directory, touches
nothing on disk, never fails. -/
def NewTemplateManagerFS (srcDir : String) : fsTM :=
  ⟨srcDir⟩

/-- `Template` (lines 99-102): `named` (zero value `""`) and `direct`
(a `*template.Template`, nil modelled as `none`). -/
structure Template where
  named : String
  direct : Option String
deriving DecidableEq, Repr

/-- `NamedTemplate` (lines 105-107). -/
def NamedTemplate (called : String) : Template :=
  ⟨called, none⟩

/-- `DirectTemplate` (lines 110-112). -/
def DirectTemplate (t : String) : Template :=
  ⟨"", some t⟩

/-- Observable events at the response writer, in order: `WriteHeader` calls
and body writes, plus the manager lookups and template executions the
middleware performs (so that ordering and absence can be stated). -/
inductive Ev
  | writeHeader (code : Int)
  | writeBody (s : String)
  | lookupTpl (name : String)
  | execTpl (handle : String)
deriving DecidableEq, Repr

/-- Whether an event is a `WriteHeader` call. -/
def Ev.isWriteHeader : Ev → Bool
  | .writeHeader _ => true
  | _ => false

/-- The `WriteHeader` codes of a trace, in order. -/
def headersOf (trace : List Ev) : List Int :=
  trace.filterMap (fun e => match e with | .writeHeader c => some c | _ => none)

/-- The body reaching the client: concatenation of all body writes. -/
def bodyOf (trace : List Ev) : String :=
  trace.foldr (fun e acc => match e with | .writeBody s => s ++ acc | _ => acc) ""

/-- Number of `WriteHeader` calls in a trace. -/
def countWH (trace : List Ev) : Nat :=
  (trace.filter Ev.isWriteHeader).length

/-- Data passed to a template execution: either the `ErrorResponse` value
(`templated.Execute(w, er)`) or the handler's opaque data. -/
inductive TplData
  | errData (er : Option ErrorResponse)
  | userData (v : String)
deriving DecidableEq, Repr

/-- The middleware's external collaborators for one request:
`Templates.LookupTemplate` and the template engine's `Execute` (which writes
some output to the response writer and then returns an error or nil). -/
structure Env where
  lookup : String → Except GoError String
  exec : String → TplData → String × Option GoError

/-- The single chunk `writeBasicErrorResponse` (lines 196-208) flushes to the
writer: each context line plus newline, then `er.Error()` plus newline,
buffered and written once.  When `er` is the nil interface (a handler error
that does not expose `ErrorResponse`), `er.Error()` is a nil-interface method
call: a runtime panic, before anything is flushed — modelled as `none`. -/
def writeBasicErrorResponse (er : Option ErrorResponse) (context : List String) :
    Option String :=
  match er with
  | none => none
  | some e => some (context.foldr (fun x acc => x ++ "\n" ++ acc) (e.msg ++ "\n"))

/-- The status code `handleError` selects (lines 164-172): the declared
status when the error exposes `ErrorResponse`, else 500. -/
def errStatus (e : GoError) : Int :=
  match e.asResponse with
  | some r => r.status
  | none => 500

/-- `fmt.Sprintf("%d.html", statusCode)` (line 180). -/
def statusTemplateFile (e : GoError) : String :=
  toString (errStatus e) ++ ".html"

/-- Outcome of `handleError` for a non-nil error: it returns true (`stop`),
or panics inside `writeBasicErrorResponse` (nil `ErrorResponse`). -/
inductive HEOut
  | cont
  | stop
  | panicNilER
deriving DecidableEq, Repr

/-- The events `handleError` (lines 159-194) appends for a non-nil error,
with its outcome.  Order follows the source: `WriteHeader` first, then the
`"<status>.html"` lookup, then — on lookup success — the execution and its
output, then on failure the basic fallback (logging has no observable effect
on the response and is omitted). -/
def handleErrorEvents (env : Env) (e : GoError) (context : List String) :
    HEOut × List Ev :=
  let er := e.asResponse
  let statusCode := errStatus e
  let templateFile := statusTemplateFile e
  match env.lookup templateFile with
  | .error _ =>
    match writeBasicErrorResponse er context with
    | none => (.panicNilER, [.writeHeader statusCode, .lookupTpl templateFile])
    | some s =>
      (.stop, [.writeHeader statusCode, .lookupTpl templateFile, .writeBody s])
  | .ok handle =>
    let p := env.exec handle (.errData er)
    match p.2 with
    | none =>
      (.stop, [.writeHeader statusCode, .lookupTpl templateFile,
               .execTpl handle, .writeBody p.1])
    | some _ =>
      match writeBasicErrorResponse er context with
      | none =>
        (.panicNilER, [.writeHeader statusCode, .lookupTpl templateFile,
                       .execTpl handle, .writeBody p.1])
      | some s =>
        (.stop, [.writeHeader statusCode, .lookupTpl templateFile,
                 .execTpl handle, .writeBody p.1, .writeBody s])

/-- Result of `handleError`: outcome plus the full trace so far. -/
structure HEResult where
  out : HEOut
  trace : List Ev
deriving DecidableEq, Repr

/-- `handleError` (lines 159-194): nil error is a no-op returning false
(`cont`); a non-nil error appends `handleErrorEvents` and stops (or panics). -/
def handleError (env : Env) (tr : List Ev) (err : Option GoError)
    (context : List String) : HEResult :=
  match err with
  | none => ⟨.cont, tr⟩
  | some e =>
    match handleErrorEvents env e context with
    | (o, evs) => ⟨o, tr ++ evs⟩

/-- The behaviour of one `TemplateHandler.Serve` call: the writes it makes
through the capturing writer, and its returned (descriptor, data, error).
The descriptor is a `*Template`, so possibly nil (`none`). -/
structure HandlerBehavior where
  events : List Ev
  t : Option Template
  data : String
  err : Option GoError
deriving Repr

/-- `responseWriterCapturer.statusCode` after the handler ran: the last code
passed to `WriteHeader` on the wrapper, or 0 when it was never called. -/
def capturedStatus (evs : List Ev) : Int :=
  evs.foldl (fun acc e => match e with | .writeHeader c => c | _ => acc) 0

/-- Outcome of one `ServeHTTP` dispatch. -/
inductive SOut
  | ok
  | panicNilER
  | panicNilDescriptor
deriving DecidableEq, Repr

/-- Result of `ServeHTTP`: outcome plus the trace reaching the writer. -/
structure SResult where
  out : SOut
  trace : List Ev
deriving DecidableEq, Repr

/-- Template execution on the success path (line 155):
`gt.Execute(w, data)` writes its output to the original writer and its error
is routed through `handleError`. -/
def execPhase (env : Env) (tr : List Ev) (gt : String) (data : String) : SResult :=
  let p := env.exec gt (.userData data)
  let tr2 := tr ++ [Ev.execTpl gt, Ev.writeBody p.1]
  let r := handleError env tr2 p.2 []
  match r.out with
  | .panicNilER => ⟨.panicNilER, r.trace⟩
  | _ => ⟨.ok, r.trace⟩

/-- `TemplateMiddleware.ServeHTTP` (lines 131-156).  The 10-second deadline
and logger have no observable effect on the response and are omitted.  The
handler's own writes pass through the capturer unchanged; `handleError` is
consulted on the handler's error *before* the captured-status check; a nil
descriptor reaching `t.direct` is a nil-pointer dereference (panic). -/
def serveHTTP (env : Env) (h : HandlerBehavior) : SResult :=
  let r1 := handleError env h.events h.err []
  match r1.out with
  | .panicNilER => ⟨.panicNilER, r1.trace⟩
  | .stop => ⟨.ok, r1.trace⟩
  | .cont =>
    if capturedStatus h.events ≠ 0 then ⟨.ok, r1.trace⟩
    else
      match h.t with
      | none => ⟨.panicNilDescriptor, r1.trace⟩
      | some t =>
        match t.direct with
        | some gt => execPhase env r1.trace gt h.data
        | none =>
          let tr := r1.trace ++ [Ev.lookupTpl t.named]
          match env.lookup t.named with
          | .error e2 =>
            let r2 := handleError env tr (some e2) []
            match r2.out with
            | .panicNilER => ⟨.panicNilER, r2.trace⟩
            | _ => ⟨.ok, r2.trace⟩
          | .ok gt => execPhase env tr gt h.data

/-- Whether an `Except` is the success case. -/
def isOkE {ε α : Type} : Except ε α → Bool
  | .ok _ => true
  | .error _ => false

/-- An environment whose manager holds no templates at all: every lookup
fails with the not-found error; executions write nothing and succeed. -/
def envNoTemplates : Env :=
  ⟨fun name => .error (templateNotFoundErr name), fun _ _ => ("", none)⟩

/-- An environment where every lookup succeeds and every execution writes
some partial output and then fails with a plain (non-`ErrorResponse`)
execution error. -/
def envExecFails : Env :=
  ⟨fun name => .ok name, fun _ _ => ("partial output", some ⟨"exec failed", none⟩)⟩

/-- A parse model for witnesses: parsing succeeds and defines exactly the
base names of the given files (the documented `ParseFiles` behaviour). -/
def parseBase (ps : List TplPath) : Except GoError TemplateSet :=
  .ok ⟨ps.map (fun p => p.base)⟩

theorem countWH_append (a b : List Ev) : countWH (a ++ b) = countWH a + countWH b := by
  simp [countWH, List.filter_append]

theorem bodyOf_append (a b : List Ev) : bodyOf (a ++ b) = bodyOf a ++ bodyOf b := by
  induction a with
  | nil => simp [bodyOf, String.empty_append]
  | cons e rest ih =>
    cases e <;>
      (simp only [bodyOf, List.cons_append, List.foldr_cons]
       simp only [bodyOf] at ih
       rw [ih]
       try simp [String.append_assoc])

theorem handleError_none (env : Env) (tr : List Ev) (ctx : List String) :
    handleError env tr none ctx = ⟨.cont, tr⟩ := rfl

theorem handleError_some_eq (env : Env) (tr : List Ev) (e : GoError)
    (ctx : List String) :
    handleError env tr (some e) ctx =
      ⟨(handleErrorEvents env e ctx).1, tr ++ (handleErrorEvents env e ctx).2⟩ := rfl

theorem handleErrorEvents_shape (env : Env) (e : GoError) (ctx : List String) :
    ∃ rest, (handleErrorEvents env e ctx).2 =
        Ev.writeHeader (errStatus e) :: Ev.lookupTpl (statusTemplateFile e) :: rest ∧
      ∀ ev ∈ rest, ev.isWriteHeader = false := by
  simp only [handleErrorEvents]
  split
  · split
    · exact ⟨[], rfl, by simp⟩
    · exact ⟨[Ev.writeBody _], rfl, by simp [Ev.isWriteHeader]⟩
  · split
    · exact ⟨[Ev.execTpl _, Ev.writeBody _], rfl, by simp [Ev.isWriteHeader]⟩
    · split
      · exact ⟨[Ev.execTpl _, Ev.writeBody _], rfl, by simp [Ev.isWriteHeader]⟩
      · exact ⟨[Ev.execTpl _, Ev.writeBody _, Ev.writeBody _], rfl,
          by simp [Ev.isWriteHeader]⟩

theorem handleErrorEvents_ne_cont (env : Env) (e : GoError) (ctx : List String) :
    (handleErrorEvents env e ctx).1 ≠ HEOut.cont := by
  simp only [handleErrorEvents]
  split
  · split <;> simp
  · split
    · simp
    · split <;> simp

theorem handleErrorEvents_countWH (env : Env) (e : GoError) (ctx : List String) :
    countWH (handleErrorEvents env e ctx).2 = 1 := by
  obtain ⟨rest, h2, hall⟩ := handleErrorEvents_shape env e ctx
  rw [h2]
  have hnil : rest.filter Ev.isWriteHeader = [] := by
    rw [List.filter_eq_nil_iff]
    intro a ha
    simp [hall a ha]
  simp [countWH, List.filter_cons, Ev.isWriteHeader, hnil]

theorem serveHTTP_err_some (env : Env) (h : HandlerBehavior) (e : GoError)
    (he : h.err = some e) :
    ((serveHTTP env h).out = SOut.ok ∨ (serveHTTP env h).out = SOut.panicNilER) ∧
    (serveHTTP env h).trace = h.events ++ (handleErrorEvents env e []).2 := by
  simp only [serveHTTP, he, handleError_some_eq]
  cases hx : (handleErrorEvents env e []).1 with
  | cont => exact absurd hx (handleErrorEvents_ne_cont env e [])
  | stop => simp
  | panicNilER => simp

theorem countWH_exec_body (g s : String) :
    countWH [Ev.execTpl g, Ev.writeBody s] = 0 := by
  simp [countWH, List.filter_cons, Ev.isWriteHeader]

theorem countWH_lookup_cons (n : String) (l : List Ev) :
    countWH (Ev.lookupTpl n :: l) = countWH l := by
  simp [countWH, List.filter_cons, Ev.isWriteHeader]

theorem countWH_lookup_singleton (n : String) :
    countWH [Ev.lookupTpl n] = 0 := by
  simp [countWH, List.filter_cons, Ev.isWriteHeader]

theorem execPhase_countWH_le (env : Env) (tr : List Ev) (gt d : String) :
    countWH (execPhase env tr gt d).trace ≤ countWH tr + 1 := by
  simp only [execPhase]
  cases hp : (env.exec gt (.userData d)).2 with
  | none =>
    simp only [hp, handleError_none]
    rw [countWH_append, countWH_exec_body]
    omega
  | some e2 =>
    simp only [hp, handleError_some_eq]
    split <;>
      (rw [countWH_append, countWH_append, countWH_exec_body,
        handleErrorEvents_countWH]; try omega)

theorem serveHTTP_countWH_le (env : Env) (h : HandlerBehavior) :
    countWH (serveHTTP env h).trace ≤ countWH h.events + 1 := by
  cases herr : h.err with
  | some e =>
    rw [(serveHTTP_err_some env h e herr).2, countWH_append,
      handleErrorEvents_countWH]
  | none =>
    simp only [serveHTTP, herr, handleError_none]
    split
    · exact Nat.le_succ _
    · split
      · exact Nat.le_succ _
      · split
        · exact execPhase_countWH_le env h.events _ h.data
        · split
          · simp only [handleError_some_eq]
            split <;>
              (rw [countWH_append, countWH_append, countWH_lookup_singleton,
                handleErrorEvents_countWH]; try omega)
          · refine le_trans (execPhase_countWH_le env _ _ h.data) ?_
            rw [countWH_append, countWH_lookup_singleton]

theorem serveHTTP_handler_owns (env : Env) (h : HandlerBehavior)
    (hcap : capturedStatus h.events ≠ 0) (herr : h.err = none) :
    serveHTTP env h = ⟨.ok, h.events⟩ := by
  simp only [serveHTTP, herr, handleError_none]
  rw [if_pos hcap]

/-- C1: the claim fails on the code.  For a non-nil error that does not
expose the `ErrorResponse` capability, `handleError` does write status 500,
but when the `"500.html"` template is absent the minimal fallback calls
`Error()` on the nil `ErrorResponse` interface value and panics instead of
writing a generic message: the `writeBasicErrorResponse` path does not
complete.  Evaluated here at the failing input (error `"boom"` without the
capability, manager with no templates). -/
theorem C1_nonER_error_fallback_panics :
    handleError envNoTemplates [] (some ⟨"boom", none⟩) [] =
      ⟨.panicNilER, [.writeHeader 500, .lookupTpl "500.html"]⟩ := by
  decide

/-- C2 counterexample: a handler that itself writes `WriteHeader(302)` and
also returns a non-nil error.  `handleError` runs before the captured-status
check, so a second `WriteHeader` call (403) and the error body reach the
response writer: two status-line writes, and both the handler's own write and
the fallback output are emitted — refuting "at most one WriteHeader call
reaches the client ... including when the handler both writes a status itself
and returns a non-nil error". -/
theorem C2_cex_double_writeHeader :
    countWH (serveHTTP envNoTemplates
        ⟨[.writeHeader 302], none, "d", some ⟨"x", some ⟨403, "x"⟩⟩⟩).trace = 2 ∧
    (serveHTTP envNoTemplates
        ⟨[.writeHeader 302], none, "d", some ⟨"x", some ⟨403, "x"⟩⟩⟩).trace =
      [.writeHeader 302, .writeHeader 403, .lookupTpl "403.html",
       .writeBody "x\n"] := by
  decide

/-- C2 (amended): whenever the handler itself writes no status line, at most
one `WriteHeader` call reaches the client; and for every non-nil handler
error the error-rendering path issues exactly one additional `WriteHeader`
beyond the handler's own writes, even if the handler already wrote one — so
two status-line writes reach the writer exactly when the handler both writes
a status and returns a non-nil error.  (The original "exactly one output
category" discipline is dropped: outputs can co-occur on the code, as the
counterexample's trace already shows.) -/
theorem C2_amended_status_writes (env : Env) (h : HandlerBehavior) :
    (countWH h.events = 0 → countWH (serveHTTP env h).trace ≤ 1) ∧
    (∀ e, h.err = some e →
      countWH (serveHTTP env h).trace = countWH h.events + 1) := by
  constructor
  · intro h0
    have hle := serveHTTP_countWH_le env h
    omega
  · intro e he
    rw [(serveHTTP_err_some env h e he).2, countWH_append,
      handleErrorEvents_countWH]

/-- C2 witness: at a handler writing nothing and returning a 403-status
error, the middleware issues exactly one status write. -/
theorem C2_amended_status_writes_witness :
    countWH (serveHTTP envNoTemplates
        ⟨[], none, "d", some ⟨"x", some ⟨403, "x"⟩⟩⟩).trace ≤ 1 ∧
    countWH (serveHTTP envNoTemplates
        ⟨[], none, "d", some ⟨"x", some ⟨403, "x"⟩⟩⟩).trace =
      countWH ([] : List Ev) + 1 :=
  ⟨(C2_amended_status_writes envNoTemplates _).1 rfl,
   (C2_amended_status_writes envNoTemplates _).2 _ rfl⟩

/-- C4 counterexample: a handler that calls `WriteHeader(302)` (captured
status non-zero) and returns a non-nil error.  The middleware still performs
error rendering — a further `WriteHeader`, a template lookup and a body write
— refuting "for every handler invocation with the capture flag set, the
middleware performs no further writes". -/
theorem C4_cex_error_rendering_after_handler_status :
    capturedStatus [Ev.writeHeader 302] ≠ 0 ∧
    (serveHTTP envNoTemplates
        ⟨[.writeHeader 302], none, "d", some ⟨"denied", some ⟨401, "denied"⟩⟩⟩).trace =
      [.writeHeader 302, .writeHeader 401, .lookupTpl "401.html",
       .writeBody "denied\n"] := by
  decide

/-- C4 (amended): for every handler invocation that wrote a status (captured
status code non-zero) and returned a nil error, the middleware performs no
further writes at all — no template lookup, no execution, no error rendering:
the response is exactly the handler's own writes. -/
theorem C4_amended_no_writes_after_handler_status (env : Env)
    (h : HandlerBehavior) (hcap : capturedStatus h.events ≠ 0)
    (herr : h.err = none) :
    serveHTTP env h = ⟨.ok, h.events⟩ :=
  serveHTTP_handler_owns env h hcap herr

/-- C4 witness: a handler that wrote a 302 and returned nil gets exactly its
own writes back. -/
theorem C4_amended_no_writes_witness :
    serveHTTP envNoTemplates ⟨[Ev.writeHeader 302], none, "d", none⟩ =
      ⟨.ok, [Ev.writeHeader 302]⟩ :=
  C4_amended_no_writes_after_handler_status envNoTemplates _ (by decide) rfl

/-- C9: a nil descriptor returned with a nil error and no status written is
dereferenced (`t.direct`, a nil-pointer panic); the nil-descriptor case is
safe exactly when an error was returned or a status was already written, in
which case dispatch returns before reaching the dereference. -/
theorem C9_nil_descriptor_panic (env : Env) (h : HandlerBehavior)
    (ht : h.t = none) :
    ((h.err = none ∧ capturedStatus h.events = 0) →
      serveHTTP env h = ⟨.panicNilDescriptor, h.events⟩) ∧
    ((h.err ≠ none ∨ capturedStatus h.events ≠ 0) →
      (serveHTTP env h).out ≠ .panicNilDescriptor) := by
  constructor
  · rintro ⟨herr, hcap⟩
    simp only [serveHTTP, herr, handleError_none, ht]
    rw [if_neg (by simp [hcap])]
  · intro hor
    cases herr : h.err with
    | some e =>
      rcases (serveHTTP_err_some env h e herr).1 with hout | hout <;>
        simp [hout]
    | none =>
      have hcap : capturedStatus h.events ≠ 0 := by
        rcases hor with hne | hcap
        · exact absurd herr hne
        · exact hcap
      rw [serveHTTP_handler_owns env h hcap herr]
      simp

/-- C9 witness: a handler returning `(nil, nil, nil)` without writing a
status makes the dispatch dereference the nil descriptor. -/
theorem C9_nil_descriptor_panic_witness :
    serveHTTP envNoTemplates ⟨[], none, "d", none⟩ =
      ⟨.panicNilDescriptor, []⟩ :=
  (C9_nil_descriptor_panic envNoTemplates ⟨[], none, "d", none⟩ rfl).1 ⟨rfl, rfl⟩

/-- C3: for every handler error exposing the `ErrorResponse` capability with
status 403, when the `"403.html"` lookup fails, the middleware writes status
403 and the body is exactly the capability's message followed by one
newline. -/
theorem C3_status403_plain_body (env : Env) (ge : GoError) (m : String)
    (t : Option Template) (d : String)
    (has : ge.asResponse = some ⟨403, m⟩)
    (hlk : isOkE (env.lookup "403.html") = false) :
    serveHTTP env ⟨[], t, d, some ge⟩ =
      ⟨.ok, [.writeHeader 403, .lookupTpl "403.html", .writeBody (m ++ "\n")]⟩ ∧
    headersOf (serveHTTP env ⟨[], t, d, some ge⟩).trace = [403] ∧
    bodyOf (serveHTTP env ⟨[], t, d, some ge⟩).trace = m ++ "\n" := by
  have hst : errStatus ge = 403 := by simp [errStatus, has]
  have hef : statusTemplateFile ge = "403.html" := by
    unfold statusTemplateFile
    rw [hst]
    decide
  rcases hl : env.lookup "403.html" with e' | v
  · have hev : handleErrorEvents env ge [] =
        (HEOut.stop,
         [Ev.writeHeader 403, Ev.lookupTpl "403.html", Ev.writeBody (m ++ "\n")]) := by
      simp only [handleErrorEvents, hef, hst, hl, writeBasicErrorResponse, has,
        List.foldr_nil]
    have hmain : serveHTTP env ⟨[], t, d, some ge⟩ =
        ⟨.ok, [.writeHeader 403, .lookupTpl "403.html", .writeBody (m ++ "\n")]⟩ := by
      simp only [serveHTTP, handleError_some_eq, hev, List.nil_append]
    refine ⟨hmain, ?_, ?_⟩
    · rw [hmain]
      rfl
    · rw [hmain]
      simp [bodyOf, String.append_empty]
  · rw [hl] at hlk
    simp [isOkE] at hlk

/-- C3 witness at a concrete 403 error and an empty manager. -/
theorem C3_status403_plain_body_witness :
    serveHTTP envNoTemplates
        ⟨[], none, "d", some ⟨"denied", some ⟨403, "denied"⟩⟩⟩ =
      ⟨.ok, [.writeHeader 403, .lookupTpl "403.html",
             .writeBody ("denied" ++ "\n")]⟩ ∧
    headersOf (serveHTTP envNoTemplates
        ⟨[], none, "d", some ⟨"denied", some ⟨403, "denied"⟩⟩⟩).trace = [403] ∧
    bodyOf (serveHTTP envNoTemplates
        ⟨[], none, "d", some ⟨"denied", some ⟨403, "denied"⟩⟩⟩).trace =
      "denied" ++ "\n" :=
  C3_status403_plain_body envNoTemplates ⟨"denied", some ⟨403, "denied"⟩⟩
    "denied" none "d" rfl rfl

/-- C5: for every name absent from a successfully parsed set, both manager
variants return the non-nil `TemplateNotFound` error, never a success with a
null/zero handle. -/
theorem C5_absent_name_not_found (name : String) (etm : embedTM) (ftm : fsTM)
    (fsys : DirFS) (parse : List TplPath → Except GoError TemplateSet)
    (files : List String) (set : TemplateSet)
    (h1 : name ∉ etm.cachedTemplates.names)
    (h2 : fsys.readDir ftm.srcDir = .ok files)
    (h3 : parse (fixFiles files ftm.srcDir) = .ok set)
    (h4 : name ∉ set.names) :
    etm.LookupTemplate name = .error (templateNotFoundErr name) ∧
    ftm.LookupTemplate fsys parse name = .error (templateNotFoundErr name) := by
  constructor
  · simp [embedTM.LookupTemplate, lookupTemplate, TemplateSet.lookup, h1]
  · simp [fsTM.LookupTemplate, h2, h3, lookupTemplate, TemplateSet.lookup, h4]

/-- C5 witness: the name `"x.html"` is absent from sets holding only
`"a.html"`; both variants report the not-found error. -/
theorem C5_absent_name_not_found_witness :
    (⟨⟨["a.html"]⟩⟩ : embedTM).LookupTemplate "x.html" =
      .error (templateNotFoundErr "x.html") ∧
    (⟨"tpl"⟩ : fsTM).LookupTemplate ⟨fun _ => .ok ["a.html"]⟩ parseBase "x.html" =
      .error (templateNotFoundErr "x.html") :=
  C5_absent_name_not_found "x.html" ⟨⟨["a.html"]⟩⟩ ⟨"tpl"⟩
    ⟨fun _ => .ok ["a.html"]⟩ parseBase ["a.html"] ⟨["a.html"]⟩
    (by decide) rfl rfl (by decide)

/-- C7: for every non-nil error routed through `handleError`, the status
header write is the first event appended — it precedes the
`"<status>.html"` lookup and every body write — and no later appended event
is a `WriteHeader`, so the templated error page cannot change the reported
status code. -/
theorem C7_status_written_first (env : Env) (tr : List Ev) (e : GoError)
    (ctx : List String) :
    ∃ rest, (handleError env tr (some e) ctx).trace =
        tr ++ Ev.writeHeader (errStatus e) ::
          Ev.lookupTpl (statusTemplateFile e) :: rest ∧
      ∀ ev ∈ rest, ev.isWriteHeader = false := by
  obtain ⟨rest, h2, hall⟩ := handleErrorEvents_shape env e ctx
  exact ⟨rest, by rw [handleError_some_eq, h2], hall⟩

theorem parseBase_complete (ps : List TplPath) (set : TemplateSet)
    (hok : parseBase ps = .ok set) (p : TplPath) (hp : p ∈ ps) :
    p.base ∈ set.names := by
  simp only [parseBase] at hok
  have h := Except.ok.inj hok
  subst h
  exact List.mem_map_of_mem _ hp

/-- C6: `fixFiles` excludes exactly the listed names containing `#` or `~`
anywhere and includes every other listed file, joined onto the root; a clean
listed name resolves successfully through the embedded manager built from
that listing (the hypothesis on `parse` is the documented `ParseFS`
behaviour: every parsed file defines a template named after its base name). -/
theorem C6_filter_and_resolve (files : List String) (root : String)
    (parse : List TplPath → Except GoError TemplateSet)
    (hpc : ∀ ps set, parse ps = .ok set → ∀ p ∈ ps, p.base ∈ set.names)
    (tm : embedTM)
    (hmk : NewTemplateManagerEmbed (.ok files) parse root = .ok tm)
    (x : String) (hx : x ∈ files) :
    (TplPath.mk root x ∈ fixFiles files root ↔ hasBadChar x = false) ∧
    (hasBadChar x = false → isOkE (tm.LookupTemplate x) = true) := by
  have hmem : TplPath.mk root x ∈ fixFiles files root ↔ hasBadChar x = false := by
    constructor
    · intro hp
      rcases List.mem_filterMap.mp hp with ⟨a, ha, hfa⟩
      by_cases hb : hasBadChar a = true
      · rw [if_pos hb] at hfa
        cases hfa
      · rw [if_neg hb] at hfa
        have hax : a = x := by
          have := congrArg TplPath.base (Option.some.inj hfa)
          simpa using this
        subst hax
        simpa using hb
    · intro hb
      refine List.mem_filterMap.mpr ⟨x, hx, ?_⟩
      rw [if_neg (by simp [hb])]
  refine ⟨hmem, ?_⟩
  intro hb
  rcases hps : parse (fixFiles files root) with perr | ts
  · simp only [NewTemplateManagerEmbed, hps] at hmk
    exact Except.noConfusion hmk
  · simp only [NewTemplateManagerEmbed, hps] at hmk
    have htm := Except.ok.inj hmk
    subst htm
    have hxn : x ∈ ts.names := by
      simpa using hpc _ _ hps ⟨root, x⟩ (hmem.mpr hb)
    simp [embedTM.LookupTemplate, lookupTemplate, TemplateSet.lookup, hxn, isOkE]

/-- C6 witness: a listing with one clean file and one `#`-file; the clean
file is kept and resolves, the `#`-file is excluded. -/
theorem C6_filter_and_resolve_witness :
    (TplPath.mk "tpl" "home.html" ∈ fixFiles ["home.html", "bak#1.html"] "tpl" ↔
      hasBadChar "home.html" = false) ∧
    (hasBadChar "home.html" = false →
      isOkE ((⟨⟨["home.html"]⟩⟩ : embedTM).LookupTemplate "home.html") = true) :=
  C6_filter_and_resolve ["home.html", "bak#1.html"] "tpl" parseBase
    parseBase_complete ⟨⟨["home.html"]⟩⟩ rfl "home.html" (by decide)

/-- C8: the filesystem manager holds no cached state — a manager is only its
source directory, so two managers over the same directory produce identical
lookups against any current directory state, and a clean template name
present in the directory's current listing (with the fresh parse succeeding)
resolves on the next lookup regardless of what the directory held when the
manager was constructed (`NewTemplateManagerFS` reads nothing). -/
theorem C8_fs_lookup_fresh (d : String) (fsys : DirFS)
    (parse : List TplPath → Except GoError TemplateSet)
    (hpc : ∀ ps set, parse ps = .ok set → ∀ p ∈ ps, p.base ∈ set.names)
    (name : String) (files : List String) (set : TemplateSet)
    (hrd : fsys.readDir d = .ok files)
    (hparse : parse (fixFiles files d) = .ok set)
    (hmem : name ∈ files) (hclean : hasBadChar name = false) :
    isOkE ((NewTemplateManagerFS d).LookupTemplate fsys parse name) = true ∧
    ∀ tm1 tm2 : fsTM, tm1.srcDir = tm2.srcDir →
      tm1.LookupTemplate fsys parse name = tm2.LookupTemplate fsys parse name := by
  constructor
  · have hfx : TplPath.mk d name ∈ fixFiles files d :=
      List.mem_filterMap.mpr ⟨name, hmem, by rw [if_neg (by simp [hclean])]⟩
    have hn : name ∈ set.names := by simpa using hpc _ _ hparse _ hfx
    simp [NewTemplateManagerFS, fsTM.LookupTemplate, hrd, hparse,
      lookupTemplate, TemplateSet.lookup, hn, isOkE]
  · intro tm1 tm2 hsd
    simp [fsTM.LookupTemplate, hsd]

/-- C8 witness: a directory that now contains `"new.html"` (regardless of
construction-time contents) serves it on the next lookup. -/
theorem C8_fs_lookup_fresh_witness :
    isOkE ((NewTemplateManagerFS "tpl").LookupTemplate
      ⟨fun _ => .ok ["new.html"]⟩ parseBase "new.html") = true ∧
    ∀ tm1 tm2 : fsTM, tm1.srcDir = tm2.srcDir →
      tm1.LookupTemplate ⟨fun _ => .ok ["new.html"]⟩ parseBase "new.html" =
        tm2.LookupTemplate ⟨fun _ => .ok ["new.html"]⟩ parseBase "new.html" :=
  C8_fs_lookup_fresh "tpl" ⟨fun _ => .ok ["new.html"]⟩ parseBase
    parseBase_complete "new.html" ["new.html"] ⟨["new.html"]⟩
    rfl rfl (by decide) rfl

/-- C10 counterexample: a non-`ErrorResponse` error whose `"500.html"`
template resolves but fails partway through execution.  The partial output is
kept, but the minimal fallback then panics on the nil capability value before
writing anything, so the fallback text is *not* appended — refuting the claim
for errors without the `ErrorResponse` capability. -/
theorem C10_cex_partial_then_panic :
    handleError envExecFails [] (some ⟨"boom", none⟩) [] =
      ⟨.panicNilER, [.writeHeader 500, .lookupTpl "500.html",
                     .execTpl "500.html", .writeBody "partial output"]⟩ ∧
    bodyOf (handleError envExecFails [] (some ⟨"boom", none⟩) []).trace =
      "partial output" := by
  decide

/-- C10 (amended): for errors exposing the `ErrorResponse` capability, when
the status-coded template resolves but its execution fails partway, the
partial template output already written to the response body is kept and the
minimal fallback text is appended directly after it.  (For errors without
the capability the fallback panics instead of appending.) -/
theorem C10_amended_partial_then_fallback (env : Env) (tr : List Ev)
    (e : GoError) (r : ErrorResponse) (ctx : List String) (handle : String)
    (e2 : GoError)
    (has : e.asResponse = some r)
    (hlk : env.lookup (statusTemplateFile e) = .ok handle)
    (hex : (env.exec handle (.errData (some r))).2 = some e2) :
    handleError env tr (some e) ctx =
      ⟨.stop, tr ++ [Ev.writeHeader r.status,
                     Ev.lookupTpl (statusTemplateFile e), Ev.execTpl handle,
                     Ev.writeBody (env.exec handle (.errData (some r))).1,
                     Ev.writeBody (ctx.foldr (fun x acc => x ++ "\n" ++ acc)
                       (r.msg ++ "\n"))]⟩ ∧
    bodyOf (handleError env tr (some e) ctx).trace =
      bodyOf tr ++ ((env.exec handle (.errData (some r))).1 ++
        ctx.foldr (fun x acc => x ++ "\n" ++ acc) (r.msg ++ "\n")) := by
  have hst : errStatus e = r.status := by simp [errStatus, has]
  have hev : handleErrorEvents env e ctx =
      (.stop, [Ev.writeHeader r.status,
               Ev.lookupTpl (statusTemplateFile e), Ev.execTpl handle,
               Ev.writeBody (env.exec handle (.errData (some r))).1,
               Ev.writeBody (ctx.foldr (fun x acc => x ++ "\n" ++ acc)
                 (r.msg ++ "\n"))]) := by
    simp only [handleErrorEvents, hst, has, hlk, hex, writeBasicErrorResponse]
  have hfirst : handleError env tr (some e) ctx =
      ⟨.stop, tr ++ [Ev.writeHeader r.status,
                     Ev.lookupTpl (statusTemplateFile e), Ev.execTpl handle,
                     Ev.writeBody (env.exec handle (.errData (some r))).1,
                     Ev.writeBody (ctx.foldr (fun x acc => x ++ "\n" ++ acc)
                       (r.msg ++ "\n"))]⟩ := by
    rw [handleError_some_eq, hev]
  refine ⟨hfirst, ?_⟩
  rw [hfirst]
  simp only [bodyOf_append]
  simp [bodyOf, String.append_empty, String.append_assoc]

/-- C10 witness at a concrete 500-status error whose template execution
fails after writing partial output: the body is the partial output followed
by the plain-text dump. -/
theorem C10_amended_partial_then_fallback_witness :
    handleError envExecFails [] (some ⟨"boom", some ⟨500, "boom"⟩⟩) [] =
      ⟨.stop, [Ev.writeHeader 500, Ev.lookupTpl "500.html",
               Ev.execTpl "500.html", Ev.writeBody "partial output",
               Ev.writeBody "boom\n"]⟩ ∧
    bodyOf (handleError envExecFails []
        (some ⟨"boom", some ⟨500, "boom"⟩⟩) []).trace =
      "partial output" ++ "boom\n" := by
  have h := C10_amended_partial_then_fallback envExecFails []
    ⟨"boom", some ⟨500, "boom"⟩⟩ ⟨500, "boom"⟩ [] "500.html"
    ⟨"exec failed", none⟩ rfl rfl rfl
  simpa using h

end Web
